import Mathlib

/-!
# Reassist — Research Session Orchestrator: verification development

Shallow embedding of the research orchestrator of the Reassist repository:

* `routePOST` / `routeNormalize` embed the API route handler
  `src/frontend/app/api/research/route.ts` (`POST`), in particular its
  report-normalization section (lines 174–250);
* `hookNormalize`, `step` and friends embed the client orchestrator hook
  `useResearch` (the Gemini-backed variant, `src/unnamed/part_015`,
  second module): its session state, `startResearch`, `submitFollowUp`,
  `reset`, `setError`, the progress interval and the fetch continuation.

Modelling conventions:

* JavaScript values produced by `JSON.parse` are modelled by `Json`
  (numbers as rationals); the possibly-absent result of a property read
  is a `JsVal` (`undefined` or a `Json`).  A property read on `null` throws
  a `TypeError`, modelled by `Except.error`; `x || d` is modelled by
  truthiness-based defaulting (`JsVal.orDefault`, `JsVal.orElse`).
* `JSON.parse` itself is external (the JS runtime); it is modelled as an
  abstract function `String → Option Json` (`none` = parse failure), and
  theorems quantify over it.  Concrete facts used in counterexamples
  (e.g. that the string `"null"` parses to JSON `null`) are noted where
  used.
* Wall-clock values (`new Date()`, `crypto.randomUUID`, `generateId`)
  and the `researchMetadata` block are environment-dependent and no
  claim concerns them; timestamps that feed report fields are passed in
  as explicit `today` parameters and opaque identifier fields are
  omitted.  Randomized source-count increments (`Math.random`) are
  passed in as event parameters.
* The orchestrator runs on the single-threaded JS event loop.  The
  machine `step` treats each synchronously-executed region as one
  atomic event: the synchronous prefix of `startResearch` (with the
  persistent-store collaborator absent, as §6 of the spec requires the
  orchestrator to support), one interval firing, the continuation after
  the provider fetch settles, `reset`, and `setError`.
-/

namespace Reassist

/-- JSON values as produced by `JSON.parse` (numbers as rationals). -/
inductive Json where
  | null
  | bool (b : Bool)
  | num (q : ℚ)
  | str (s : String)
  | arr (elems : List Json)
  | obj (fields : List (String × Json))

/-- Result of a JavaScript property read: a value or `undefined`. -/
inductive JsVal where
  | undefined
  | val (j : Json)

/-- JavaScript truthiness of a JSON value: `null`, `false`, `0` and the
empty string are falsy; arrays and objects are truthy. -/
def Json.truthy : Json → Bool
  | .null => false
  | .bool b => b
  | .num q => decide (q ≠ 0)
  | .str s => decide (s ≠ "")
  | .arr _ => true
  | .obj _ => true

/-- Truthiness of a property-read result (`undefined` is falsy). -/
def JsVal.truthy : JsVal → Bool
  | .undefined => false
  | .val j => j.truthy

/-- `x.k` for non-null `x`, total: field lookup on objects, `undefined`
on every other receiver (primitives have none of the fields the route
reads). -/
def Json.fieldVal : Json → String → JsVal
  | .obj fs, k => match fs.lookup k with
                  | some v => .val v
                  | none => .undefined
  | _, _ => .undefined

/-- Is this JSON value `null`? -/
def Json.isNull : Json → Bool
  | .null => true
  | _ => false

/-- `x.k` as evaluated by JavaScript: reading a property of `null`
throws a `TypeError`; otherwise `Json.fieldVal`. -/
def Json.getField (j : Json) (k : String) : Except String JsVal :=
  if j.isNull then .error ("TypeError: cannot read properties of null (reading " ++ k ++ ")")
  else .ok (j.fieldVal k)

/-- `x || d` where `x` is a property-read result and `d` a literal:
keep `x` when truthy, else the default. -/
def JsVal.orDefault : JsVal → Json → Json
  | .undefined, d => d
  | .val j, d => if j.truthy then j else d

/-- `x || y` for two property-read results (used for chained defaults
such as `section.heading || section.title || ...`). -/
def JsVal.orElse : JsVal → JsVal → JsVal
  | .undefined, y => y
  | .val j, y => if j.truthy then .val j else y

/-- `x.map(...)` is only a function when `x` is an array; on any other
receiver JavaScript throws a `TypeError`. -/
def Json.asMappable : Json → Except String (List Json)
  | .arr xs => .ok xs
  | _ => .error "TypeError: .map is not a function"

/-! ## Report Normalizer — API route (`route.ts`, POST, lines 174–250) -/

/-- Code-fence cleanup of the provider text (route.ts lines 174–185):
trim, strip a leading triple-backtick marker (with or without the
`json` tag), strip a trailing triple-backtick marker, trim again. -/
def cleanResponse (s : String) : String :=
  let t := s.trim
  let t := if t.startsWith ("```json") then t.drop 7 else t
  let t := if t.startsWith ("```") then t.drop 3 else t
  let t := if t.endsWith ("```") then t.dropRight 3 else t
  t.trim

/-- The raw object the route builds when `JSON.parse` fails
(route.ts lines 192–209): single `Analysis` finding over the whole
cleaned text, 500-character summary, no sources, quality score 0.7.
(The `researchMetadata` block is wall-clock dependent and read only
through optional chaining; no claim concerns it.) -/
def fallbackData (content : String) : Json :=
  .obj [("title", .str "Research Findings"),
        ("summary", .str (content.take 500)),
        ("findings", .arr [.obj [("heading", .str "Analysis"),
                                 ("content", .str content)]]),
        ("sources", .arr []),
        ("keyStatistics", .arr []),
        ("knowledgeGaps", .arr []),
        ("followUpQuestions", .arr []),
        ("qualityScore", .num (7/10))]

/-- A source after the route's per-source defaulting map
(route.ts lines 218–231).  `id` is the template literal
`source-${index + 1}`; the other fields keep whatever truthy JSON the
provider supplied, with the route's literal defaults otherwise.
The source field named `type` is called `sourceType` here (`type` is a
Lean keyword). -/
structure RouteSource where
  id : Json
  title : Json
  url : Json
  description : Json
  reliability : Json
  sourceType : Json

/-- A key statistic after the route's defaulting map
(route.ts lines 232–238). -/
structure RouteStat where
  value : Json
  context : Json

/-- The route's normalized report (route.ts lines 213–250).  The
`findings`, `knowledgeGaps`, `followUpQuestions` and `qualityScore`
fields are passed through as raw JSON exactly as the source does; the
environment-dependent `id`, `generatedAt` and `researchMetadata`
fields are omitted (no claim concerns them). -/
structure RouteReport where
  title : Json
  summary : Json
  findings : Json
  sources : List RouteSource
  keyStatistics : List RouteStat
  knowledgeGaps : Json
  followUpQuestions : Json
  qualityScore : Json

/-- One iteration of the route's `sources.map` callback
(route.ts lines 218–231); reading a property of a `null` element
throws. -/
def mapSource (index : Nat) (source : Json) : Except String RouteSource := do
  let t ← source.getField "title"
  let u ← source.getField "url"
  let d ← source.getField "description"
  let r ← source.getField "reliability"
  let ty ← source.getField "type"
  pure { id := .str ("source-" ++ toString (index + 1)),
         title := t.orDefault (.str ("Source " ++ toString (index + 1))),
         url := u.orDefault (.str "#"),
         description := d.orDefault (.str ""),
         reliability := r.orDefault (.str "medium"),
         sourceType := ty.orDefault (.str "news") }

/-- `(researchData.sources || []).map(...)` element-wise, tracking the
array index. -/
def mapSources : Nat → List Json → Except String (List RouteSource)
  | _, [] => .ok []
  | i, s :: rest => do
      let r ← mapSource i s
      let rs ← mapSources (i + 1) rest
      pure (r :: rs)

/-- One iteration of the route's `keyStatistics.map` callback
(route.ts lines 232–238). -/
def mapStat (stat : Json) : Except String RouteStat := do
  let v ← stat.getField "value"
  let c ← stat.getField "context"
  pure { value := v.orDefault (.str ""), context := c.orDefault (.str "") }

/-- `(researchData.keyStatistics || []).map(...)` element-wise. -/
def mapStats : List Json → Except String (List RouteStat)
  | [] => .ok []
  | s :: rest => do
      let r ← mapStat s
      let rs ← mapStats rest
      pure (r :: rs)

/-- The route's normalization section (route.ts lines 187–250): take
the cleaned provider text and the outcome of `JSON.parse` on it
(`none` = parse threw), substitute the fallback object on parse
failure, then build the report with `||`-defaulting, mirroring the
evaluation order of the object literal.  A thrown `TypeError`
(e.g. a `null` parse result, or a truthy non-array `sources` field)
surfaces as `Except.error` and is turned into a 500 response by the
route's outer `try/catch`. -/
def routeNormalize (cleaned : String) (parsed : Option Json) : Except String RouteReport := do
  let researchData : Json :=
    match parsed with
    | some j => j
    | none => fallbackData cleaned
  let title ← researchData.getField "title"
  let summary ← researchData.getField "summary"
  let findings ← researchData.getField "findings"
  let sourcesField ← researchData.getField "sources"
  let sourceItems ← (sourcesField.orDefault (.arr [])).asMappable
  let sources ← mapSources 0 sourceItems
  let statsField ← researchData.getField "keyStatistics"
  let statItems ← (statsField.orDefault (.arr [])).asMappable
  let keyStatistics ← mapStats statItems
  let knowledgeGaps ← researchData.getField "knowledgeGaps"
  let followUpQuestions ← researchData.getField "followUpQuestions"
  let qualityScore ← researchData.getField "qualityScore"
  pure { title := title.orDefault (.str "Research Report"),
         summary := summary.orDefault (.str ""),
         findings := findings.orDefault (.arr []),
         sources := sources,
         keyStatistics := keyStatistics,
         knowledgeGaps := knowledgeGaps.orDefault (.arr []),
         followUpQuestions := followUpQuestions.orDefault (.arr []),
         qualityScore := qualityScore.orDefault (.num (3/4)) }

/-- Outcome of the route's single `model.generateContent` call
(the external provider is a black box: text or a thrown failure). -/
inductive Provider where
  | ok (text : String)
  | fail (msg : String)

/-- What the route handler sends back, plus the observation whether the
generative-text provider was actually called.  `errorField` / `message`
are the `error` / `message` properties of an error body. -/
structure RouteResult where
  status : Nat
  success : Bool
  report : Option RouteReport
  errorField : Option String
  message : Option String
  providerCalled : Bool

/-- The route handler `POST` (route.ts lines 103–264), for a request
body `{ question, searchDepth }` as the hook sends it (`question` is
always a string there, so the `!question || typeof question !==
'string'` validation reduces to `question = ""`).  `jparse` models
`JSON.parse` (`none` = throw).  Order: question validation (400),
credential check (503, before any provider call), provider call,
empty-text check, cleanup, normalization; any exception in the `try`
block yields a 500 with the exception message. -/
def routePOST (question : String) (apiKey : Option String) (provider : Provider)
    (jparse : String → Option Json) : RouteResult :=
  if question = "" then
    { status := 400, success := false, report := none,
      errorField := some "Question is required", message := none,
      providerCalled := false }
  else
    match apiKey with
    | none =>
        { status := 503, success := false, report := none,
          errorField := some "API not configured",
          message := some "Please add GEMINI_API_KEY to your .env.local file",
          providerCalled := false }
    | some _ =>
        match provider with
        | .fail msg =>
            { status := 500, success := false, report := none,
              errorField := some "Research failed", message := some msg,
              providerCalled := true }
        | .ok text =>
            if text = "" then
              { status := 500, success := false, report := none,
                errorField := some "Research failed",
                message := some "No response from Gemini",
                providerCalled := true }
            else
              let cleaned := cleanResponse text
              match routeNormalize cleaned (jparse cleaned) with
              | .ok rep =>
                  { status := 200, success := true, report := some rep,
                    errorField := none, message := none, providerCalled := true }
              | .error msg =>
                  { status := 500, success := false, report := none,
                    errorField := some "Research failed", message := some msg,
                    providerCalled := true }

/-! ## Client-side report construction (`useResearch`, part_015 lines 386–407) -/

/-- A report section as the hook builds it (part_015 lines 390–395).
`content` is `section.content` with no default, so it may be
`undefined`. -/
structure ReportSection where
  id : String
  title : Json
  content : JsVal
  citations : Json

/-- A source as the hook builds it (part_015 lines 396–403).  `id` is a
JS number (`typeof s.id === 'number' ? s.id : idx + 1`); the route
response carries no `publishedDate`/`author` properties, so
`publishedDate` falls back to today's date string and `author` is
`undefined`. -/
structure HookSource where
  id : ℚ
  title : Json
  url : Json
  publishedDate : Json
  author : JsVal
  sourceType : Json

/-- The hook's `ResearchReport` (part_015 lines 386–407); the
environment-dependent `id` and `generatedAt` fields are omitted (no
claim concerns them), `researchDuration` is the literal 30. -/
structure ResearchReport where
  question : String
  executiveSummary : Json
  sections : List ReportSection
  sources : List HookSource
  knowledgeGaps : Json
  researchDuration : Nat

/-- One iteration of the hook's section map callback
(part_015 lines 390–395); reading a property of a `null` element
throws. -/
def mapHookSection (idx : Nat) (s : Json) : Except String ReportSection := do
  let h ← s.getField "heading"
  let t ← s.getField "title"
  let c ← s.getField "content"
  let cit ← s.getField "citations"
  pure { id := "section-" ++ toString (idx + 1),
         title := (h.orElse t).orDefault (.str ("Section " ++ toString (idx + 1))),
         content := c,
         citations := cit.orDefault (.arr []) }

/-- `(data.report.findings || data.report.sections || []).map(...)`:
the route report has no `sections` property, so the chain reduces to
`findings || []`; `.map` throws on a truthy non-array value. -/
def hookSections (findings : Json) : Except String (List ReportSection) := do
  let base := if findings.truthy then findings else .arr []
  let items ← base.asMappable
  mapHookSectionsFrom 0 items
where
  mapHookSectionsFrom : Nat → List Json → Except String (List ReportSection)
    | _, [] => .ok []
    | i, s :: rest => do
        let r ← mapHookSection i s
        let rs ← mapHookSectionsFrom (i + 1) rest
        pure (r :: rs)

/-- One iteration of the hook's source map callback
(part_015 lines 396–403), applied to a route-response source. -/
def hookSource (today : String) (idx : Nat) (s : RouteSource) : HookSource :=
  { id := match s.id with
          | .num q => q
          | _ => (idx : ℚ) + 1,
    title := s.title,
    url := s.url,
    publishedDate := .str today,
    author := .undefined,
    sourceType := if s.sourceType.truthy then s.sourceType else .str "article" }

/-- `(data.report.sources || []).map(...)` over the route report's
source array. -/
def hookSources (today : String) : Nat → List RouteSource → List HookSource
  | _, [] => []
  | i, s :: rest => hookSource today i s :: hookSources today (i + 1) rest

/-- The hook's construction of its `ResearchReport` from the route's
report (part_015 lines 386–407).  Only the sections map can throw. -/
def hookNormalize (questionText today : String) (rep : RouteReport) :
    Except String ResearchReport := do
  let sections ← hookSections rep.findings
  pure { question := questionText,
         executiveSummary := if rep.summary.truthy then rep.summary else .str "",
         sections := sections,
         sources := hookSources today 0 rep.sources,
         knowledgeGaps := if rep.knowledgeGaps.truthy then rep.knowledgeGaps else .arr [],
         researchDuration := 30 }

/-- How the fetch continuation settles (part_015 lines 365–450):
either a fully hook-normalized report, or the error message of the
exception reaching the `catch` block. -/
inductive FetchOutcome where
  | ok (rep : ResearchReport)
  | err (msg : String)

/-- The hook's handling of the route response (part_015 lines 375–407):
a non-2xx status throws `errorData.message || 'API error: <status>'`, a
2xx body without `success`/`report` throws `'Invalid response from
research API'`, otherwise the hook report is built (whose own
`TypeError`s also land in the `catch` block). -/
def fetchOutcome (questionText today : String) (r : RouteResult) : FetchOutcome :=
  if r.status ≠ 200 then
    .err (match r.message with
          | some m => if m = "" then "API error: " ++ toString r.status else m
          | none => "API error: " ++ toString r.status)
  else
    match r.report with
    | none => .err "Invalid response from research API"
    | some rep =>
        if ¬ r.success then .err "Invalid response from research API"
        else
          match hookNormalize questionText today rep with
          | .ok hr => .ok hr
          | .error msg => .err msg

/-! ## Session State Machine (`useResearch`, part_015 lines 230–493) -/

/-- Session lifecycle phase. -/
inductive Phase where
  | idle
  | researching
  | completed
  | error
deriving DecidableEq, Repr

/-- Category tag of a canned progress step (the source calls the field
`type`, a Lean keyword). -/
inductive StepCategory where
  | search
  | analyze
  | synthesize
deriving DecidableEq, Repr

/-- One canned progress step. -/
structure ProgressStep where
  message : String
  category : StepCategory
deriving DecidableEq, Repr

/-- The fixed progress schedule (part_015 lines 241–248). -/
def progressSteps : List ProgressStep :=
  [⟨"Analyzing your research question...", .analyze⟩,
   ⟨"Searching for relevant information...", .search⟩,
   ⟨"Evaluating source credibility...", .analyze⟩,
   ⟨"Cross-referencing data points...", .analyze⟩,
   ⟨"Synthesizing findings...", .synthesize⟩,
   ⟨"Generating comprehensive report...", .synthesize⟩]

/-- A progress update as appended to the session (part_015 lines
348–354); the environment-dependent `id` and `timestamp` fields are
omitted. -/
structure ProgressUpdate where
  message : String
  category : StepCategory
  sourcesAnalyzed : Nat
deriving DecidableEq, Repr

/-- The current question (environment-dependent `id`/`timestamp`
omitted). -/
structure Question where
  text : String

/-- A conversation history entry (part_015 lines 415–419).  The source
reads `prev.currentQuestion!`; the non-null assertion is erased at
runtime, so a `null` question passes through, hence the `Option`. -/
structure ConversationEntry where
  question : Option Question
  report : ResearchReport

/-- The session state (part_015 lines 230–238, `ResearchState`). -/
structure ResearchState where
  phase : Phase
  currentQuestion : Option Question
  progressUpdates : List ProgressUpdate
  currentReport : Option ResearchReport
  conversationHistory : List ConversationEntry
  error : Option String
  sourcesAnalyzed : Nat

/-- `initialState` (part_015 lines 230–238). -/
def initialState : ResearchState :=
  { phase := .idle, currentQuestion := none, progressUpdates := [],
    currentReport := none, conversationHistory := [], error := none,
    sourcesAnalyzed := 0 }

/-- The live interval's closure state: which run installed it
(`progressIntervalRef`), the `progressIndex` and `sourcesCount`
variables captured by `showProgress` (part_015 lines 338–357). -/
structure IntervalState where
  runId : Nat
  progressIndex : Nat
  sourcesCount : Nat

/-- The whole orchestrator: the React session state, the interval ref
(`none` = cleared), and the outstanding provider fetches, each tagged
with a fresh run id — the code keeps no such tag, which is exactly why
stale resolutions still apply; the tag only identifies which fetch an
event resolves. -/
structure Machine where
  session : ResearchState
  interval : Option IntervalState
  pending : List (Nat × String)
  nextRun : Nat

/-- The freshly mounted hook. -/
def initMachine : Machine :=
  { session := initialState, interval := none, pending := [], nextRun := 0 }

/-- One `showProgress()` invocation (part_015 lines 341–357) at
progress index `pi` with running counter `sc`: if steps remain, bump
the counter by the randomized `inc` on `analyze` steps and produce the
update together with the new counter. -/
def showProgress (inc pi sc : Nat) : Option (ProgressUpdate × Nat) :=
  match progressSteps.get? pi with
  | some st =>
      let sc' := if st.category = .analyze then sc + inc else sc
      some ({ message := st.message, category := st.category,
              sourcesAnalyzed := sc' }, sc')
  | none => none

/-- Events of the orchestrator.  `start` covers both `startResearch`
and `submitFollowUp` (the latter just calls the former); `inc` carries
the `Math.random`-based increment of the immediately fired first
progress step.  `tick` is one firing of the 3-second interval.
`resolve` is the continuation that runs when the fetch of run `runId`
settles with `outcome`. -/
inductive Event where
  | start (questionText : String) (inc : Nat)
  | tick (inc : Nat)
  | resolve (runId : Nat) (outcome : FetchOutcome)
  | reset
  | setError (msg : String)

/-- Is this a `start` event? -/
def Event.isStart : Event → Bool
  | .start _ _ => true
  | _ => false

/-- `addProgressUpdate` (part_015 lines 273–279): append the update and
take over its `sourcesAnalyzed` count. -/
def addProgressUpdate (s : ResearchState) (u : ProgressUpdate) : ResearchState :=
  { s with progressUpdates := s.progressUpdates ++ [u],
           sourcesAnalyzed := u.sourcesAnalyzed }

/-- One atomic step of the orchestrator on the JS event loop.

* `start q inc` — the synchronous prefix of `startResearch`
  (part_015 lines 297–371, persistent store absent): clear the
  interval, reset the session to `researching` with the new question,
  fire `showProgress()` once, install a fresh interval, and leave the
  provider fetch outstanding.
* `tick inc` — one interval firing: a no-op once the interval ref is
  cleared (a cleared interval never fires again), otherwise one
  `showProgress()`.
* `resolve rid outcome` — the continuation after the fetch of run
  `rid` settles (part_015 lines 373–450): `clearProgress()` (whichever
  interval is current), then on success set `completed`, the report,
  the history entry and `sourcesAnalyzed := report.sources.length`; on
  failure set `error`.  Resolving a fetch that is not outstanding is a
  no-op (a promise settles once).  There is no check that `rid` is the
  still-current run — faithfully to the source, which keeps no such
  guard.
* `reset` — part_015 lines 463–467: clear the interval, restore
  `initialState`; pending fetches are *not* cancelled.
* `setError msg` — part_015 lines 472–479. -/
def step (m : Machine) : Event → Machine
  | .start q inc =>
      let base : ResearchState :=
        { m.session with phase := .researching, currentQuestion := some ⟨q⟩,
                         progressUpdates := [], currentReport := none,
                         error := none, sourcesAnalyzed := 0 }
      let afterFirst :=
        match showProgress inc 0 0 with
        | some (u, sc') => (addProgressUpdate base u, 1, sc')
        | none => (base, 0, 0)
      { session := afterFirst.1,
        interval := some ⟨m.nextRun, afterFirst.2.1, afterFirst.2.2⟩,
        pending := m.pending ++ [(m.nextRun, q)],
        nextRun := m.nextRun + 1 }
  | .tick inc =>
      match m.interval with
      | none => m
      | some iv =>
          match showProgress inc iv.progressIndex iv.sourcesCount with
          | some (u, sc') =>
              { m with session := addProgressUpdate m.session u,
                       interval := some ⟨iv.runId, iv.progressIndex + 1, sc'⟩ }
          | none => m
  | .resolve rid outcome =>
      if m.pending.any (fun p => p.1 == rid) then
        let pending' := m.pending.filter (fun p => p.1 != rid)
        match outcome with
        | .ok rep =>
            { session :=
                { m.session with
                    phase := .completed,
                    currentReport := some rep,
                    conversationHistory :=
                      m.session.conversationHistory ++ [⟨m.session.currentQuestion, rep⟩],
                    sourcesAnalyzed := rep.sources.length },
              interval := none, pending := pending', nextRun := m.nextRun }
        | .err msg =>
            { session := { m.session with phase := .error, error := some msg },
              interval := none, pending := pending', nextRun := m.nextRun }
      else m
  | .reset =>
      { m with session := initialState, interval := none }
  | .setError msg =>
      { m with session := { m.session with phase := .error, error := some msg },
               interval := none }

/-- Run a sequence of events from a machine state. -/
def run (m : Machine) (evs : List Event) : Machine :=
  evs.foldl step m

/-! ## Derived predicates used by the claims -/

/-- Is this JSON value a number? -/
def Json.isNum : Json → Bool
  | .num _ => true
  | _ => false

/-- A truthy-or-defaulted field is an array all of whose elements are
non-null: exactly the shape on which the route's `(x || []).map(...)`
pattern cannot throw. -/
def arrayOfNonNull : Json → Bool
  | .arr xs => xs.all (fun e => !e.isNull)
  | _ => false

/-- Parsed provider JSON on which the route's normalization section is
throw-free: a non-null value whose (defaulted) `sources` and
`keyStatistics` fields are arrays of non-null elements. -/
def safeParsed (j : Json) : Bool :=
  !j.isNull &&
  arrayOfNonNull ((j.fieldVal "sources").orDefault (.arr [])) &&
  arrayOfNonNull ((j.fieldVal "keyStatistics").orDefault (.arr []))

/-- The route report the parse-failure fallback produces, in closed
form. -/
def fallbackReport (s : String) : RouteReport :=
  { title := .str "Research Findings",
    summary := .str (s.take 500),
    findings := .arr [.obj [("heading", .str "Analysis"),
                            ("content", .str s)]],
    sources := [],
    keyStatistics := [],
    knowledgeGaps := .arr [],
    followUpQuestions := .arr [],
    qualityScore := .num (7/10) }

/-- Did an `Except`-valued computation succeed? -/
def isOkE {α : Type} : Except String α → Bool
  | .ok _ => true
  | .error _ => false

/-- One observed phase transition is legal per the spec's §4.1 edge
list: an unchanged phase, `reset` to `idle` from anywhere, or one of
`idle→researching`, `researching→completed`, `researching→error`,
`completed→researching`, `error→researching`. -/
def specEdge (p p' : Phase) (e : Event) : Bool :=
  p == p' ||
  (match e with
   | .reset => p' == .idle
   | _ => false) ||
  (p == .idle && p' == .researching) ||
  (p == .researching && p' == .completed) ||
  (p == .researching && p' == .error) ||
  (p == .completed && p' == .researching) ||
  (p == .error && p' == .researching)

/-- Does every transition along an event sequence satisfy the spec's
edge list? -/
def phaseLegal : Machine → List Event → Bool
  | _, [] => true
  | m, e :: evs =>
      let m' := step m e
      specEdge m.session.phase m'.session.phase e && phaseLegal m' evs

/-- The transitions the code actually permits: an unchanged phase, or
the target phase dictated by the event alone — `researching` for
`start`, `idle` for `reset`, `error` for `setError` or a failing
resolution, `completed` for a successful resolution — from any source
phase. -/
def codeEdge (p p' : Phase) (e : Event) : Bool :=
  p == p' ||
  match e with
  | .start _ _ => p' == .researching
  | .reset => p' == .idle
  | .setError _ => p' == .error
  | .resolve _ (.ok _) => p' == .completed
  | .resolve _ (.err _) => p' == .error
  | .tick _ => false

/-- Does every transition along an event sequence satisfy the
code-derived edge list? -/
def codePhaseLegal : Machine → List Event → Bool
  | _, [] => true
  | m, e :: evs =>
      let m' := step m e
      codeEdge m.session.phase m'.session.phase e && codePhaseLegal m' evs

/-- A non-JSON provider answer used in concrete runs. -/
def sampleProse : String := "Sure! Solid-state batteries are promising."

/-- `sampleProse` after the route's code-fence cleanup. -/
def sampleClean : String := cleanResponse sampleProse

/-- The hook report the pipeline produces for `sampleProse` when
`JSON.parse` fails on it (see `sampleReport_reachable`): the
parse-failure fallback, hook-normalized. -/
def sampleReport : ResearchReport :=
  { question := "Topic A",
    executiveSummary := .str (sampleClean.take 500),
    sections := [{ id := "section-1", title := .str "Analysis",
                   content := .val (.str sampleClean), citations := .arr [] }],
    sources := [],
    knowledgeGaps := .arr [],
    researchDuration := 30 }

/-- The route report whose every field took its default, except for the
quality score — the shape produced from a parsed object carrying
nothing the route reads (besides, possibly, `qualityScore`). -/
def defaultedReport (qs : Json) : RouteReport :=
  { title := .str "Research Report", summary := .str "", findings := .arr [],
    sources := [], keyStatistics := [], knowledgeGaps := .arr [],
    followUpQuestions := .arr [], qualityScore := qs }

/-! ## Helper lemmas -/

theorem Json.getField_of_not_null {j : Json} (h : j.isNull = false) (k : String) :
    j.getField k = .ok (j.fieldVal k) := by
  simp [Json.getField, h]

theorem Json.getField_null (k : String) :
    Json.null.getField k =
      .error ("TypeError: cannot read properties of null (reading " ++ k ++ ")") := by
  simp [Json.getField, Json.isNull]

theorem JsVal.orDefault_str_empty (t : String) :
    JsVal.orDefault (.val (.str t)) (.str "") = .str t := by
  by_cases h : t = "" <;> simp [JsVal.orDefault, Json.truthy, h]

/-- `JSON.parse` failure: the route normalization always succeeds with
the closed-form fallback report. -/
theorem routeNormalize_none (s : String) :
    routeNormalize s none = .ok (fallbackReport s) := by
  simp [routeNormalize, fallbackData, fallbackReport, Json.getField, Json.isNull,
        Json.fieldVal, List.lookup, JsVal.orDefault, Json.truthy, Json.asMappable,
        mapSources, mapStats, bind, Except.bind]
  by_cases h : s.take 500 = "" <;> simp [h, pure, Except.pure]

/-- `JSON.parse` failure: the hook report built from the fallback route
report, in closed form. -/
theorem hookNormalize_fallback (q today s : String) :
    hookNormalize q today (fallbackReport s) =
      .ok { question := q,
            executiveSummary := .str (s.take 500),
            sections := [{ id := "section-1", title := .str "Analysis",
                           content := .val (.str s), citations := .arr [] }],
            sources := [],
            knowledgeGaps := .arr [],
            researchDuration := 30 } := by
  simp [hookNormalize, hookSections, hookSections.mapHookSectionsFrom, mapHookSection,
        fallbackReport, Json.truthy, Json.asMappable, Json.getField, Json.isNull,
        Json.fieldVal, List.lookup, JsVal.orElse, JsVal.orDefault, hookSources,
        bind, Except.bind, pure, Except.pure]
  by_cases h : s.take 500 = "" <;> simp [h] <;> rfl

theorem mapSource_of_not_null {e : Json} (h : e.isNull = false) (i : Nat) :
    mapSource i e = .ok
      { id := .str ("source-" ++ toString (i + 1)),
        title := (e.fieldVal "title").orDefault (.str ("Source " ++ toString (i + 1))),
        url := (e.fieldVal "url").orDefault (.str "#"),
        description := (e.fieldVal "description").orDefault (.str ""),
        reliability := (e.fieldVal "reliability").orDefault (.str "medium"),
        sourceType := (e.fieldVal "type").orDefault (.str "news") } := by
  simp [mapSource, Json.getField_of_not_null h, bind, Except.bind, pure, Except.pure]

theorem mapStat_of_not_null {e : Json} (h : e.isNull = false) :
    mapStat e = .ok
      { value := (e.fieldVal "value").orDefault (.str ""),
        context := (e.fieldVal "context").orDefault (.str "") } := by
  simp [mapStat, Json.getField_of_not_null h, bind, Except.bind, pure, Except.pure]

theorem mapSources_isOk : ∀ (xs : List Json), (∀ e ∈ xs, e.isNull = false) → ∀ i,
    isOkE (mapSources i xs) = true
  | [], _, _ => rfl
  | x :: rest, h, i => by
      have ih := mapSources_isOk rest (fun e he => h e (List.mem_cons_of_mem _ he)) (i + 1)
      have hx := h x (List.mem_cons_self _ _)
      cases hr : mapSources (i + 1) rest with
      | error e => rw [hr] at ih; simp [isOkE] at ih
      | ok rs =>
          simp [mapSources, mapSource_of_not_null hx, hr,
                bind, Except.bind, pure, Except.pure, isOkE]

theorem mapStats_isOk : ∀ (xs : List Json), (∀ e ∈ xs, e.isNull = false) →
    isOkE (mapStats xs) = true
  | [], _ => rfl
  | x :: rest, h => by
      have ih := mapStats_isOk rest (fun e he => h e (List.mem_cons_of_mem _ he))
      have hx := h x (List.mem_cons_self _ _)
      cases hr : mapStats rest with
      | error e => rw [hr] at ih; simp [isOkE] at ih
      | ok rs =>
          simp [mapStats, mapStat_of_not_null hx, hr,
                bind, Except.bind, pure, Except.pure, isOkE]

theorem arrayOfNonNull_spec {v : Json} (h : arrayOfNonNull v = true) :
    ∃ xs, v = .arr xs ∧ ∀ e ∈ xs, e.isNull = false := by
  cases v with
  | arr xs =>
      refine ⟨xs, rfl, ?_⟩
      simpa [arrayOfNonNull, List.all_eq_true] using h
  | null => simp [arrayOfNonNull] at h
  | bool b => simp [arrayOfNonNull] at h
  | num q => simp [arrayOfNonNull] at h
  | str s => simp [arrayOfNonNull] at h
  | obj fs => simp [arrayOfNonNull] at h

/-- Normalization on a parse-success value, in closed form, given the
shapes of the mapped fields. -/
theorem routeNormalize_some_eq {j : Json} (hnn : j.isNull = false)
    {items stats : List Json}
    (hitems : (j.fieldVal "sources").orDefault (.arr []) = .arr items)
    (hstats : (j.fieldVal "keyStatistics").orDefault (.arr []) = .arr stats)
    {rs : List RouteSource} (hrs : mapSources 0 items = .ok rs)
    {ks : List RouteStat} (hks : mapStats stats = .ok ks) (s : String) :
    routeNormalize s (some j) = .ok
      { title := (j.fieldVal "title").orDefault (.str "Research Report"),
        summary := (j.fieldVal "summary").orDefault (.str ""),
        findings := (j.fieldVal "findings").orDefault (.arr []),
        sources := rs,
        keyStatistics := ks,
        knowledgeGaps := (j.fieldVal "knowledgeGaps").orDefault (.arr []),
        followUpQuestions := (j.fieldVal "followUpQuestions").orDefault (.arr []),
        qualityScore := (j.fieldVal "qualityScore").orDefault (.num (3/4)) } := by
  simp [routeNormalize, Json.getField_of_not_null hnn, hitems, hstats, Json.asMappable,
        hrs, hks, bind, Except.bind, pure, Except.pure]

theorem Json.eq_null_of_isNull {j : Json} (h : j.isNull = true) : j = .null := by
  cases j <;> simp [Json.isNull] at h ⊢

/-- Safe parse-success inputs never make the route normalization
throw. -/
theorem routeNormalize_some_isOk {j : Json} (h : safeParsed j = true) (s : String) :
    isOkE (routeNormalize s (some j)) = true := by
  rcases (Bool.and_eq_true _ _).mp h with ⟨h12, hks0⟩
  rcases (Bool.and_eq_true _ _).mp h12 with ⟨hn0, hsrc0⟩
  have hnn : j.isNull = false := by simpa using hn0
  obtain ⟨items, hitems, hinn⟩ := arrayOfNonNull_spec hsrc0
  obtain ⟨stats, hstats, hsnn⟩ := arrayOfNonNull_spec hks0
  have hms := mapSources_isOk items hinn 0
  have hmt := mapStats_isOk stats hsnn
  cases hrs : mapSources 0 items with
  | error e => rw [hrs] at hms; simp [isOkE] at hms
  | ok rs =>
      cases hksr : mapStats stats with
      | error e => rw [hksr] at hmt; simp [isOkE] at hmt
      | ok ks =>
          rw [routeNormalize_some_eq hnn hitems hstats hrs hksr s]
          rfl

/-- Inversion: a successful parse-success normalization pins down the
result record and the shapes of the mapped fields. -/
theorem routeNormalize_some_inv {j : Json} {s : String} {rep : RouteReport}
    (h : routeNormalize s (some j) = .ok rep) :
    j.isNull = false ∧
    ∃ items stats rs ks,
      (j.fieldVal "sources").orDefault (.arr []) = .arr items ∧
      (j.fieldVal "keyStatistics").orDefault (.arr []) = .arr stats ∧
      mapSources 0 items = .ok rs ∧ mapStats stats = .ok ks ∧
      rep = { title := (j.fieldVal "title").orDefault (.str "Research Report"),
              summary := (j.fieldVal "summary").orDefault (.str ""),
              findings := (j.fieldVal "findings").orDefault (.arr []),
              sources := rs,
              keyStatistics := ks,
              knowledgeGaps := (j.fieldVal "knowledgeGaps").orDefault (.arr []),
              followUpQuestions := (j.fieldVal "followUpQuestions").orDefault (.arr []),
              qualityScore := (j.fieldVal "qualityScore").orDefault (.num (3/4)) } := by
  by_cases hnt : j.isNull = true
  · rw [Json.eq_null_of_isNull hnt] at h
    simp [routeNormalize, Json.getField, Json.isNull, bind, Except.bind] at h
  · have hnn : j.isNull = false := by simpa using hnt
    refine ⟨hnn, ?_⟩
    simp only [routeNormalize, Json.getField_of_not_null hnn, bind, Except.bind,
               pure, Except.pure] at h
    cases hsv : (j.fieldVal "sources").orDefault (.arr []) with
    | null => rw [hsv] at h; simp [Json.asMappable] at h
    | bool b => rw [hsv] at h; simp [Json.asMappable] at h
    | num q => rw [hsv] at h; simp [Json.asMappable] at h
    | str t => rw [hsv] at h; simp [Json.asMappable] at h
    | obj fs => rw [hsv] at h; simp [Json.asMappable] at h
    | arr items =>
        rw [hsv] at h
        simp only [Json.asMappable] at h
        cases hrs : mapSources 0 items with
        | error e => rw [hrs] at h; simp at h
        | ok rs =>
            rw [hrs] at h
            cases hkv : (j.fieldVal "keyStatistics").orDefault (.arr []) with
            | null => rw [hkv] at h; simp [Json.asMappable] at h
            | bool b => rw [hkv] at h; simp [Json.asMappable] at h
            | num q => rw [hkv] at h; simp [Json.asMappable] at h
            | str t => rw [hkv] at h; simp [Json.asMappable] at h
            | obj fs => rw [hkv] at h; simp [Json.asMappable] at h
            | arr stats =>
                rw [hkv] at h
                simp only [Json.asMappable] at h
                cases hksr : mapStats stats with
                | error e => rw [hksr] at h; simp at h
                | ok ks =>
                    rw [hksr] at h
                    simp only [Except.ok.injEq] at h
                    exact ⟨items, stats, rs, ks, rfl, rfl, hrs, hksr, h.symm⟩

/-- Every source the route map emits carries the template-literal id
`source-(i+1)` — a string, never a number. -/
theorem mapSource_id {i : Nat} {e : Json} {r : RouteSource} (h : mapSource i e = .ok r) :
    r.id = .str ("source-" ++ toString (i + 1)) := by
  by_cases hnt : e.isNull = true
  · rw [Json.eq_null_of_isNull hnt] at h
    simp [mapSource, Json.getField, Json.isNull, bind, Except.bind] at h
  · have hnn : e.isNull = false := by simpa using hnt
    rw [mapSource_of_not_null hnn] at h
    simp only [Except.ok.injEq] at h
    rw [← h]

theorem mapSources_ids : ∀ {xs : List Json} {i : Nat} {rs : List RouteSource},
    mapSources i xs = .ok rs → ∀ r ∈ rs, r.id.isNum = false := by
  intro xs
  induction xs with
  | nil =>
      intro i rs h r hr
      simp only [mapSources, Except.ok.injEq] at h
      rw [← h] at hr
      cases hr
  | cons x rest ih =>
      intro i rs h r hr
      simp only [mapSources, bind, Except.bind] at h
      cases h1 : mapSource i x with
      | error e => rw [h1] at h; simp at h
      | ok r0 =>
          rw [h1] at h
          cases h2 : mapSources (i + 1) rest with
          | error e => rw [h2] at h; simp at h
          | ok rs' =>
              rw [h2] at h
              simp only [pure, Except.pure, Except.ok.injEq] at h
              rw [← h] at hr
              rcases List.mem_cons.mp hr with h3 | h3
              · rw [h3, mapSource_id h1]; rfl
              · exact ih h2 r h3

/-- Density of the hook's source ids: starting the index count at `k`,
the `n`-th mapped source carries id `k + n + 1`, as long as no input id
is a JS number. -/
theorem hookSources_get {today : String} :
    ∀ (rs : List RouteSource) (k n : Nat) (hsrc : HookSource),
      (∀ r ∈ rs, r.id.isNum = false) →
      (hookSources today k rs).get? n = some hsrc →
      hsrc.id = (k : ℚ) + (n : ℚ) + 1 := by
  intro rs
  induction rs with
  | nil => intro k n hsrc _ hget; simp [hookSources] at hget
  | cons r rest ih =>
      intro k n hsrc hids hget
      cases n with
      | zero =>
          have hid := hids r (List.mem_cons_self _ _)
          simp only [hookSources, List.get?] at hget
          rw [← Option.some_inj.mp hget]
          cases hr : r.id with
          | num q => rw [hr] at hid; simp [Json.isNum] at hid
          | null => simp [hookSource, hr]
          | bool b => simp [hookSource, hr]
          | str t => simp [hookSource, hr]
          | arr xs => simp [hookSource, hr]
          | obj fs => simp [hookSource, hr]
      | succ n' =>
          simp only [hookSources, List.get?] at hget
          have := ih (k + 1) n' hsrc
            (fun r' h' => hids r' (List.mem_cons_of_mem _ h')) hget
          rw [this]
          push_cast
          ring

/-- Inversion of the hook's report construction. -/
theorem hookNormalize_inv {q today : String} {rep : RouteReport} {hr : ResearchReport}
    (h : hookNormalize q today rep = .ok hr) :
    ∃ secs, hookSections rep.findings = .ok secs ∧
      hr = { question := q,
             executiveSummary := if rep.summary.truthy then rep.summary else .str "",
             sections := secs,
             sources := hookSources today 0 rep.sources,
             knowledgeGaps := if rep.knowledgeGaps.truthy then rep.knowledgeGaps else .arr [],
             researchDuration := 30 } := by
  simp only [hookNormalize, bind, Except.bind, pure, Except.pure] at h
  cases hs : hookSections rep.findings with
  | error e => rw [hs] at h; simp at h
  | ok secs =>
      rw [hs] at h
      simp only [Except.ok.injEq] at h
      exact ⟨secs, rfl, h.symm⟩

/-- The route hands out a report only from the 200 branch, i.e. only a
successful normalization result. -/
theorem routePOST_report_inv {q : String} {akey : Option String} {prov : Provider}
    {jparse : String → Option Json} {rep : RouteReport}
    (h : (routePOST q akey prov jparse).report = some rep) :
    ∃ cleaned parsed, routeNormalize cleaned parsed = .ok rep := by
  unfold routePOST at h
  by_cases hq : q = ""
  · simp [hq] at h
  · rw [if_neg hq] at h
    cases akey with
    | none => simp at h
    | some k =>
        dsimp only at h
        cases prov with
        | fail m => simp at h
        | ok text =>
            dsimp only at h
            by_cases ht : text = ""
            · simp [ht] at h
            · rw [if_neg ht] at h
              cases hn : routeNormalize (cleanResponse text) (jparse (cleanResponse text)) with
              | error e => rw [hn] at h; simp at h
              | ok rep' =>
                  rw [hn] at h
                  simp only [Option.some_inj] at h
                  exact ⟨_, _, by rw [hn, h]⟩

/-- `sampleReport` is a genuine pipeline output: the provider answers
`sampleProse` (no leading/trailing fences or whitespace), `JSON.parse`
fails on it, the route falls back and the hook normalizes the
result. -/
theorem sampleReport_reachable :
    fetchOutcome "Topic A" "2024-01-01"
      (routePOST "Topic A" (some "key") (.ok sampleProse) (fun _ => none)) =
      .ok sampleReport := by
  have h1 : routePOST "Topic A" (some "key") (.ok sampleProse) (fun _ => none) =
      { status := 200, success := true, report := some (fallbackReport sampleClean),
        errorField := none, message := none, providerCalled := true } := by
    simp [routePOST, routeNormalize_none, sampleClean, sampleProse]
  rw [h1]
  simp [fetchOutcome, hookNormalize_fallback, sampleReport]

/-- Progress-free machines with a cleared interval stay progress-free
under every event but `start`. -/
theorem step_quiet {m : Machine} {e : Event}
    (h1 : m.session.progressUpdates = []) (h2 : m.interval = none)
    (he : e.isStart = false) :
    (step m e).session.progressUpdates = [] ∧ (step m e).interval = none := by
  cases e with
  | start q inc => simp [Event.isStart] at he
  | tick inc => simp [step, h2, h1]
  | resolve rid outcome =>
      by_cases hp : m.pending.any (fun p => p.1 == rid) = true
      · cases outcome <;> simp [step, hp, h1]
      · simp [step, hp, h1, h2]
  | reset => simp [step, initialState]
  | setError msg => simp [step, h1, h2]

/-- No event sequence without a `start` can repopulate the progress
list from a quiet machine. -/
theorem run_quiet : ∀ (evs : List Event) (m : Machine),
    m.session.progressUpdates = [] → m.interval = none →
    (∀ e ∈ evs, e.isStart = false) →
    (run m evs).session.progressUpdates = [] ∧ (run m evs).interval = none
  | [], m, h1, h2, _ => ⟨h1, h2⟩
  | e :: evs, m, h1, h2, h => by
      have he := h e (List.mem_cons_self _ _)
      obtain ⟨h1', h2'⟩ := step_quiet h1 h2 he
      have := run_quiet evs (step m e) h1' h2' (fun e' he' => h e' (List.mem_cons_of_mem _ he'))
      simpa [run] using this

/-- The phase after one step is either unchanged or the phase the event
dictates. -/
theorem step_codeEdge (m : Machine) (e : Event) :
    codeEdge m.session.phase (step m e).session.phase e = true := by
  cases e with
  | start q inc =>
      cases h : showProgress inc 0 0 <;>
        simp [step, h, codeEdge, addProgressUpdate]
  | tick inc =>
      cases hiv : m.interval with
      | none => simp [step, hiv, codeEdge]
      | some iv =>
          cases h : showProgress inc iv.progressIndex iv.sourcesCount <;>
            simp [step, hiv, h, codeEdge, addProgressUpdate]
  | resolve rid outcome =>
      by_cases hp : m.pending.any (fun p => p.1 == rid) = true
      · cases outcome <;> simp [step, hp, codeEdge]
      · cases outcome <;> simp [step, hp, codeEdge]
  | reset => simp [step, codeEdge, initialState]
  | setError msg => simp [step, codeEdge]

/-- Every event sequence satisfies the code-derived phase edges. -/
theorem codePhaseLegal_true : ∀ (evs : List Event) (m : Machine),
    codePhaseLegal m evs = true
  | [], _ => rfl
  | e :: evs, m => by
      have h1 := step_codeEdge m e
      have h2 := codePhaseLegal_true evs (step m e)
      simp [codePhaseLegal, h1, h2]

/-! ## Claims -/

/-- C1 (code_bug): the code has no stale-response guard.  After
`startResearch("Topic A")` and `reset()` the session is back to
`initialState`; yet when A's provider call then resolves (with the
report `sampleReport`, a genuine pipeline output by
`sampleReport_reachable`), the continuation still runs: it flips the
reset session to `completed` and installs A's report.  Likewise, after
`startResearch("Topic B")` supersedes A, A's resolution sets
`completed` on B's active session and kills B's progress interval
(B's own fetch is still outstanding).  The spec's stale-response
immunity — A's result must never mutate the session once B is active
or the session was reset — is violated. -/
theorem c1_stale_resolution_mutates_session :
    (run initMachine [.start "Topic A" 2, .reset]).session = initialState ∧
    (run initMachine [.start "Topic A" 2, .reset,
        .resolve 0 (.ok sampleReport)]).session.phase = .completed ∧
    (run initMachine [.start "Topic A" 2, .reset,
        .resolve 0 (.ok sampleReport)]).session.currentReport.isSome = true ∧
    (run initMachine [.start "Topic A" 2, .start "Topic B" 3,
        .resolve 0 (.ok sampleReport)]).session.phase = .completed ∧
    (run initMachine [.start "Topic A" 2, .start "Topic B" 3,
        .resolve 0 (.ok sampleReport)]).interval = none ∧
    (run initMachine [.start "Topic A" 2, .start "Topic B" 3,
        .resolve 0 (.ok sampleReport)]).pending = [(1, "Topic B")] :=
  ⟨rfl, rfl, rfl, rfl, rfl, rfl⟩

/-- C2 (confirmed): for every report the API route hands out and every
hook-normalized report built from it, the final sources carry the
dense id sequence `sources[i].id = i + 1`, regardless of any id values
in the provider's JSON — the route always stamps string ids
`source-(i+1)`, so the hook's `typeof id === 'number'` test always
falls through to `idx + 1`. -/
theorem c2_source_id_density (q : String) (akey : Option String) (prov : Provider)
    (jparse : String → Option Json) (qt today : String) (rep : RouteReport)
    (hr : ResearchReport)
    (hroute : (routePOST q akey prov jparse).report = some rep)
    (hhook : hookNormalize qt today rep = .ok hr) :
    ∀ (n : Nat) (hsrc : HookSource), hr.sources.get? n = some hsrc →
      hsrc.id = (n : ℚ) + 1 := by
  obtain ⟨c, p, hnorm⟩ := routePOST_report_inv hroute
  have hids : ∀ r ∈ rep.sources, r.id.isNum = false := by
    cases p with
    | none =>
        rw [routeNormalize_none] at hnorm
        have hrep : fallbackReport c = rep := by
          simpa using hnorm
        rw [← hrep]
        intro r hrr
        simp [fallbackReport] at hrr
    | some j =>
        obtain ⟨-, items, stats, rs, ks, -, -, hrs, -, hrep⟩ :=
          routeNormalize_some_inv hnorm
        rw [hrep]
        exact mapSources_ids hrs
  obtain ⟨secs, -, hrEq⟩ := hookNormalize_inv hhook
  intro n hsrc hget
  rw [hrEq] at hget
  have := hookSources_get rep.sources 0 n hsrc hids hget
  simpa using this

/-- Witness for C2: the provider supplies a source with numeric id 42;
the pipeline's final report nevertheless carries id 1 at index 0. -/
theorem c2_source_id_density_witness :
    (routePOST "Q" (some "k") (.ok "5") (fun _ =>
        some (.obj [("sources",
          .arr [.obj [("id", .num 42), ("title", .str "T"),
                      ("url", .str "u")]])]))).report =
      some { title := .str "Research Report", summary := .str "",
             findings := .arr [],
             sources := [{ id := .str "source-1", title := .str "T",
                           url := .str "u", description := .str "",
                           reliability := .str "medium", sourceType := .str "news" }],
             keyStatistics := [], knowledgeGaps := .arr [],
             followUpQuestions := .arr [], qualityScore := .num (3/4) } ∧
    hookNormalize "Q" "2024-01-01"
      { title := .str "Research Report", summary := .str "",
        findings := .arr [],
        sources := [{ id := .str "source-1", title := .str "T",
                      url := .str "u", description := .str "",
                      reliability := .str "medium", sourceType := .str "news" }],
        keyStatistics := [], knowledgeGaps := .arr [],
        followUpQuestions := .arr [], qualityScore := .num (3/4) } =
      .ok { question := "Q", executiveSummary := .str "",
            sections := [],
            sources := [{ id := ((0 : ℕ) : ℚ) + 1, title := .str "T", url := .str "u",
                          publishedDate := .str "2024-01-01", author := .undefined,
                          sourceType := .str "news" }],
            knowledgeGaps := .arr [], researchDuration := 30 } ∧
    ({ id := ((0 : ℕ) : ℚ) + 1, title := .str "T", url := .str "u",
       publishedDate := .str "2024-01-01", author := .undefined,
       sourceType := .str "news" } : HookSource).id = (0 : ℚ) + 1 := by
  refine ⟨by rfl, by rfl, ?_⟩
  have h := c2_source_id_density "Q" (some "k") (.ok "5")
    (fun _ => some (.obj [("sources",
      .arr [.obj [("id", .num 42), ("title", .str "T"), ("url", .str "u")]])]))
    "Q" "2024-01-01"
    { title := .str "Research Report", summary := .str "", findings := .arr [],
      sources := [{ id := .str "source-1", title := .str "T", url := .str "u",
                    description := .str "", reliability := .str "medium",
                    sourceType := .str "news" }],
      keyStatistics := [], knowledgeGaps := .arr [], followUpQuestions := .arr [],
      qualityScore := .num (3/4) }
    { question := "Q", executiveSummary := .str "", sections := [],
      sources := [{ id := ((0 : ℕ) : ℚ) + 1, title := .str "T", url := .str "u",
                    publishedDate := .str "2024-01-01", author := .undefined,
                    sourceType := .str "news" }],
      knowledgeGaps := .arr [], researchDuration := 30 }
    (by rfl) (by rfl) 0
    { id := ((0 : ℕ) : ℚ) + 1, title := .str "T", url := .str "u",
      publishedDate := .str "2024-01-01", author := .undefined,
      sourceType := .str "news" } (by rfl)
  exact h.trans (by norm_num)

/-- C3 (corrected): the route normalization is *not* total.  The string
`"null"` is valid JSON, `JSON.parse` yields `null`, and the very first
property read (`researchData.title`) throws a `TypeError`; likewise a
valid JSON object whose `sources` field is the (truthy, non-array)
number 3 makes `.map` throw.  Both surface as a 500 from the route's
outer catch instead of a normalized report. -/
theorem c3_normalizer_can_throw :
    isOkE (routeNormalize "null" (some .null)) = false ∧
    isOkE (routeNormalize "" (some (.obj [("sources", .num 3)]))) = false :=
  ⟨rfl, rfl⟩

/-- C3 (amended): the Normalizer returns a structurally valid report
and never throws for every parse-failure input, and for every
parse-success value that is non-null and whose (defaulted) `sources`
and `keyStatistics` fields are arrays of non-null elements. -/
theorem c3_normalizer_total_on_safe_inputs (s : String) (parsed : Option Json)
    (h : parsed = none ∨ ∃ j, parsed = some j ∧ safeParsed j = true) :
    isOkE (routeNormalize s parsed) = true := by
  rcases h with rfl | ⟨j, rfl, hj⟩
  · rw [routeNormalize_none]; rfl
  · exact routeNormalize_some_isOk hj s

/-- Witness for C3 (amended): a parse failure and a safe parse success
both normalize without throwing. -/
theorem c3_normalizer_total_on_safe_inputs_witness :
    isOkE (routeNormalize sampleProse none) = true ∧
    isOkE (routeNormalize "" (some (.obj [("title", .str "T")]))) = true :=
  ⟨c3_normalizer_total_on_safe_inputs sampleProse none (Or.inl rfl),
   c3_normalizer_total_on_safe_inputs "" (some (.obj [("title", .str "T")]))
     (Or.inr ⟨_, rfl, rfl⟩)⟩

/-- C4 (confirmed): on every parse-failure input `s` the route builds
the single-section fallback report — title "Research Findings",
summary = first 500 characters of the text, exactly one finding headed
"Analysis" containing the entire text, no sources, no knowledge gaps,
quality score 0.7 — and the hook then renders it as exactly one section
titled "Analysis" whose content is the full text. -/
theorem c4_parse_failure_fallback (s q today : String) :
    routeNormalize s none = .ok (fallbackReport s) ∧
    (fallbackReport s).title = .str "Research Findings" ∧
    (fallbackReport s).summary = .str (s.take 500) ∧
    (fallbackReport s).findings =
      .arr [.obj [("heading", .str "Analysis"), ("content", .str s)]] ∧
    (fallbackReport s).sources = [] ∧
    (fallbackReport s).knowledgeGaps = .arr [] ∧
    (fallbackReport s).qualityScore = .num (7/10) ∧
    hookNormalize q today (fallbackReport s) =
      .ok { question := q,
            executiveSummary := .str (s.take 500),
            sections := [{ id := "section-1", title := .str "Analysis",
                           content := .val (.str s), citations := .arr [] }],
            sources := [],
            knowledgeGaps := .arr [],
            researchDuration := 30 } :=
  ⟨routeNormalize_none s, rfl, rfl, rfl, rfl, rfl, rfl, hookNormalize_fallback q today s⟩

/-- C5 (corrected, counterexample): a whitespace-only question is *not*
rejected — `" "` is truthy, passes the route's validation and the
provider is called; and the orchestrator mutates the session (phase
becomes `researching`) for any question text, empty included, before
any validation verdict. -/
theorem c5_whitespace_question_not_rejected :
    (routePOST " " (some "k") (.ok "5") (fun _ => some (.num 5))).providerCalled = true ∧
    (step initMachine (.start " " 2)).session.phase = .researching ∧
    (step initMachine (.start "" 2)).session.phase = .researching :=
  ⟨rfl, rfl, rfl⟩

/-- C5 (amended): only the *empty* question text is rejected by the API
route — synchronously, with status 400 and no provider call;
whitespace-only texts pass validation and do reach the provider; and in
every case the orchestrator has already moved the session to
`researching` before the route's verdict, so the session does not
remain unchanged. -/
theorem c5_empty_question_rejected_at_route :
    (∀ (akey : Option String) (prov : Provider) (jparse : String → Option Json),
        (routePOST "" akey prov jparse).status = 400 ∧
        (routePOST "" akey prov jparse).providerCalled = false) ∧
    (routePOST " " (some "k") (.ok "5") (fun _ => some (.num 5))).providerCalled = true ∧
    (∀ (m : Machine) (q : String) (inc : Nat),
        (step m (.start q inc)).session.phase = .researching) := by
  refine ⟨fun akey prov jparse => ⟨rfl, rfl⟩, rfl, fun m q inc => ?_⟩
  cases h : showProgress inc 0 0 <;> simp [step, h, addProgressUpdate]

/-- C6 (corrected, counterexample): the §4.1 edge list is violated:
`setError` from `idle` produces the transition `idle → error`, and a
stale resolution after `reset()` produces `idle → completed` — neither
edge is in the list. -/
theorem c6_phase_legality_violated :
    phaseLegal initMachine [.setError "boom"] = false ∧
    phaseLegal initMachine
      [.start "Topic A" 2, .reset, .resolve 0 (.ok sampleReport)] = false :=
  ⟨rfl, rfl⟩

/-- C6 (amended): for every operation sequence, each observed
transition either leaves the phase unchanged or moves it to the phase
its event dictates from *any* source phase: `researching` on
`startResearch`/`submitFollowUp`, `idle` on `reset`, `error` on
`setError` or a failing resolution of an outstanding provider call,
`completed` on a successful resolution (stale resolutions included). -/
theorem c6_code_phase_legality (m : Machine) (evs : List Event) :
    codePhaseLegal m evs = true :=
  codePhaseLegal_true evs m

/-- C7 (confirmed): whatever was scheduled, after `reset()` returns no
progress event is ever appended — the interval ref is cleared, a
cleared interval never fires, and no other continuation appends
progress — for as long as no new `startResearch` begins a new
session. -/
theorem c7_no_progress_after_reset (m : Machine) (evs : List Event)
    (h : ∀ e ∈ evs, e.isStart = false) :
    (run (step m .reset) evs).session.progressUpdates = [] :=
  (run_quiet evs (step m .reset) rfl rfl h).1

/-- Witness for C7: pending ticks and a late provider failure after a
reset leave the progress list empty. -/
theorem c7_no_progress_after_reset_witness :
    (run (step (run initMachine [.start "Topic A" 2]) .reset)
        [.tick 3, .resolve 0 (.err "network error"), .tick 1]).session.progressUpdates
      = [] :=
  c7_no_progress_after_reset _ _ (by decide)

/-- C8 (confirmed): with no provider credential the route answers 503
with the missing-configuration message before any provider call
(`providerCalled = false`), and the hook turns that response into
session phase `error` carrying that message. -/
theorem c8_missing_credential (q : String) (hq : q ≠ "") (prov : Provider)
    (jparse : String → Option Json) (today : String) (m : Machine) (rid : Nat)
    (hrid : m.pending.any (fun p => p.1 == rid) = true) :
    (routePOST q none prov jparse).providerCalled = false ∧
    (routePOST q none prov jparse).status = 503 ∧
    (step m (.resolve rid
        (fetchOutcome q today (routePOST q none prov jparse)))).session.phase = .error ∧
    (step m (.resolve rid
        (fetchOutcome q today (routePOST q none prov jparse)))).session.error =
      some "Please add GEMINI_API_KEY to your .env.local file" := by
  have hroute : routePOST q none prov jparse =
      { status := 503, success := false, report := none,
        errorField := some "API not configured",
        message := some "Please add GEMINI_API_KEY to your .env.local file",
        providerCalled := false } := by
    simp [routePOST, hq]
  have hfo : fetchOutcome q today (routePOST q none prov jparse) =
      .err "Please add GEMINI_API_KEY to your .env.local file" := by
    rw [hroute]; simp [fetchOutcome]
  refine ⟨by rw [hroute], by rw [hroute], ?_, ?_⟩ <;> rw [hfo] <;> simp [step, hrid]

/-- Witness for C8: a concrete question and machine with the fetch of
run 0 outstanding end in phase `error` with the configuration
message. -/
theorem c8_missing_credential_witness :
    (step (run initMachine [.start "What are EV battery trends?" 2])
        (.resolve 0 (fetchOutcome "What are EV battery trends?" "2024-01-01"
          (routePOST "What are EV battery trends?" none (.ok "5")
            (fun _ => some (.num 5)))))).session.phase = .error :=
  (c8_missing_credential "What are EV battery trends?" (by decide) (.ok "5")
    (fun _ => some (.num 5)) "2024-01-01"
    (run initMachine [.start "What are EV battery trends?" 2]) 0 (by decide)).2.2.1

/-- C9 (corrected, counterexample): a `qualityScore` that is *present*
in the parsed JSON with the value 0 is nevertheless replaced by the
0.75 default — `researchData.qualityScore || 0.75` treats every falsy
value as absent. -/
theorem c9_present_zero_score_replaced :
    (Json.obj [("qualityScore", .num 0)]).fieldVal "qualityScore" = .val (.num 0) ∧
    (routeNormalize "" (some (.obj [("qualityScore", .num 0)]))).map
        RouteReport.qualityScore = .ok (.num (3/4)) :=
  ⟨rfl, rfl⟩

/-- C9 (amended): on parse success the Normalizer keeps a present
`qualityScore` exactly when it is truthy, and substitutes 0.75 when the
field is absent or falsy (0, null, false, empty string); on parse
failure the score is 0.7. -/
theorem c9_quality_score_defaulting :
    (∀ (s : String) (j : Json) (rep : RouteReport) (v : Json),
        routeNormalize s (some j) = .ok rep → j.fieldVal "qualityScore" = .val v →
        v.truthy = true → rep.qualityScore = v) ∧
    (∀ (s : String) (j : Json) (rep : RouteReport) (v : Json),
        routeNormalize s (some j) = .ok rep → j.fieldVal "qualityScore" = .val v →
        v.truthy = false → rep.qualityScore = .num (3/4)) ∧
    (∀ (s : String) (j : Json) (rep : RouteReport),
        routeNormalize s (some j) = .ok rep → j.fieldVal "qualityScore" = .undefined →
        rep.qualityScore = .num (3/4)) ∧
    (∀ (s : String) (rep : RouteReport),
        routeNormalize s none = .ok rep → rep.qualityScore = .num (7/10)) := by
  refine ⟨?_, ?_, ?_, ?_⟩
  · intro s j rep v hn hv ht
    obtain ⟨-, items, stats, rs, ks, -, -, -, -, hrep⟩ := routeNormalize_some_inv hn
    rw [hrep]
    dsimp only
    rw [hv]
    simp [JsVal.orDefault, ht]
  · intro s j rep v hn hv ht
    obtain ⟨-, items, stats, rs, ks, -, -, -, -, hrep⟩ := routeNormalize_some_inv hn
    rw [hrep]
    dsimp only
    rw [hv]
    simp [JsVal.orDefault, ht]
  · intro s j rep hn hv
    obtain ⟨-, items, stats, rs, ks, -, -, -, -, hrep⟩ := routeNormalize_some_inv hn
    rw [hrep]
    dsimp only
    rw [hv]
    simp [JsVal.orDefault]
  · intro s rep hn
    rw [routeNormalize_none] at hn
    injection hn with h2
    rw [← h2]
    rfl

/-- Witness for C9 (amended): a truthy (nonzero) score 1 is kept, a
falsy score 0 and an absent score both default to 0.75, and a parse
failure yields 0.7. -/
theorem c9_quality_score_defaulting_witness :
    (∃ rep, routeNormalize "" (some (.obj [("qualityScore", .num 1)])) = .ok rep ∧
        rep.qualityScore = .num 1) ∧
    (∃ rep, routeNormalize "" (some (.obj [("qualityScore", .num 0)])) = .ok rep ∧
        rep.qualityScore = .num (3/4)) ∧
    (∃ rep, routeNormalize "" (some (.obj [])) = .ok rep ∧
        rep.qualityScore = .num (3/4)) ∧
    (∃ rep, routeNormalize "" none = .ok rep ∧ rep.qualityScore = .num (7/10)) := by
  refine ⟨⟨defaultedReport (.num 1), by rfl, ?_⟩,
          ⟨defaultedReport (.num (3/4)), by rfl, ?_⟩,
          ⟨defaultedReport (.num (3/4)), by rfl, ?_⟩,
          ⟨fallbackReport "", routeNormalize_none "", ?_⟩⟩
  · exact c9_quality_score_defaulting.1 "" (.obj [("qualityScore", .num 1)])
      (defaultedReport (.num 1)) (.num 1) (by rfl) rfl rfl
  · exact c9_quality_score_defaulting.2.1 "" (.obj [("qualityScore", .num 0)])
      (defaultedReport (.num (3/4))) (.num 0) (by rfl) rfl rfl
  · exact c9_quality_score_defaulting.2.2.1 "" (.obj [])
      (defaultedReport (.num (3/4))) (by rfl) rfl
  · exact c9_quality_score_defaulting.2.2.2 "" (fallbackReport "") (routeNormalize_none "")

/-- C10 (confirmed): the completion continuation sets the session's
`sourcesAnalyzed` to exactly `report.sources.length`, replacing
whatever count the progress scheduler had accumulated. -/
theorem c10_sources_analyzed_set_to_report_count (m : Machine) (rid : Nat)
    (rep : ResearchReport) (h : m.pending.any (fun p => p.1 == rid) = true) :
    (step m (.resolve rid (.ok rep))).session.sourcesAnalyzed = rep.sources.length := by
  simp [step, h]

/-- Witness for C10: the scheduler had accumulated 2 analyzed sources;
completion with the zero-source `sampleReport` resets the counter to
0. -/
theorem c10_sources_analyzed_set_to_report_count_witness :
    (run initMachine [.start "Topic A" 2]).session.sourcesAnalyzed = 2 ∧
    (step (run initMachine [.start "Topic A" 2])
        (.resolve 0 (.ok sampleReport))).session.sourcesAnalyzed =
      sampleReport.sources.length :=
  ⟨rfl, c10_sources_analyzed_set_to_report_count
    (run initMachine [.start "Topic A" 2]) 0 sampleReport (by decide)⟩

end Reassist
